import Mathlib

/-!
Shallow embedding of the megabrain pipeline
(nanda_adapter/agent/megabrain.py): the Serper-backed web search
function search_web and the classify / optionally-search / synthesize
pipeline megabrain_improvement, with its outer fallback handler.

External effects are modelled as explicit parameters:
  - the SERPER_API_KEY value read by os.getenv at call time is the
    serper_api_key : Option String argument;
  - the single LLM object (shared by the classifier chain and both
    synthesizer chains) is an oracle from prompt text to
    Except String String, where an error models a raised exception;
  - requests.post is an oracle from the JSON payload to an HttpResult.

Side effects that the spec quantifies over (network calls performed,
log lines printed, which synthesizer prompt was built) are recorded in
trace structures returned alongside the values.
-/

set_option maxRecDepth 100000

namespace Megabrain

/-- The ASCII whitespace characters recognised by Python str.strip()
(Unicode-only whitespace is not modelled). -/
def pyIsSpace (c : Char) : Bool :=
  c == ' ' || c == '\t' || c == '\n' || c == '\r' || c == '\x0b' || c == '\x0c'

/-- Python str.strip(): remove leading and trailing whitespace. -/
def pyStrip (s : String) : String :=
  ⟨((s.data.dropWhile pyIsSpace).reverse.dropWhile pyIsSpace).reverse⟩

/-- Python str.upper() restricted to ASCII letters. -/
def pyUpper (s : String) : String :=
  ⟨s.data.map Char.toUpper⟩

/-- A Python dict with string keys and string values, as an association
list in insertion order. -/
abbrev Dict := List (String × String)

/-- Plain dict lookup: d[k], returning none when the key is absent
(Python raises KeyError in that case). -/
def dictGet (d : Dict) (k : String) : Option String :=
  (d.find? (fun p => p.1 == k)).map (fun p => p.2)

/-- Python d.get(k, dflt). -/
def jsonGetD (d : Dict) (k dflt : String) : String :=
  (dictGet d k).getD dflt

/-- The JSON payload posted to the Serper endpoint:
payload = \x7b"q": query, "num": num_results\x7d. -/
structure SerperRequest where
  q : String
  num : Nat
deriving DecidableEq

/-- The parsed JSON body of a Serper response. organic = none models a
body in which the "organic" key is missing (data.get("organic", [])
then yields the empty list). -/
structure SerperData where
  organic : Option (List Dict)
deriving DecidableEq

/-- Outcome of one requests.post call, as observed by search_web:
either the transport raised (connection error, timeout, redirect loop)
or a response arrived with a status code and a body that either parses
as JSON (some data) or does not (none, so response.json() raises). -/
inductive HttpResult where
  | transportError (msg : String)
  | response (statusCode : Nat) (body : Option SerperData)
deriving DecidableEq

/-- The HTTP outcomes on which the try/except body of search_web
raises internally: a transport error, a 4xx/5xx status (the only codes
for which requests raise_for_status raises), or an unparseable body. -/
def isHttpFailure : HttpResult → Bool
  | .transportError _ => true
  | .response code body => (400 ≤ code && code < 600) || body.isNone

/-- Observable side effects of one search_web call: how many
requests.post calls were made, with which payloads, and which
warning/error lines were printed. -/
structure SearchTrace where
  networkCalls : Nat
  requests : List SerperRequest
  logs : List String
deriving DecidableEq

/-- Return value of search_web together with its side-effect trace. -/
structure SearchOutput where
  results : List Dict
  trace : SearchTrace
deriving DecidableEq

/-- The warning printed when SERPER_API_KEY is absent. -/
def serperWarning : String :=
  "Warning: SERPER_API_KEY not found. Web search will be disabled."

/-- The dict appended for one entry of the organic array:
\x7b"title": item.get("title", ""), "snippet": item.get("snippet", ""),
"link": item.get("link", "")\x7d. -/
def mkResult (item : Dict) : Dict :=
  [("title", jsonGetD item "title" ""),
   ("snippet", jsonGetD item "snippet" ""),
   ("link", jsonGetD item "link" "")]

/-- Python truthiness of the os.getenv result as tested by
`if not serper_api_key`: the branch is taken when the variable is
unset (None) and also when it is set to the empty string. -/
def serperKeyFalsy : Option String → Bool
  | none => true
  | some s => s.isEmpty

/-- search_web(query, num_results) from megabrain.py. Reads the
credential (per call) and short-circuits when it is falsy (unset or
empty string); otherwise posts the payload once, raises for 4xx/5xx
status, parses the JSON body, and maps the organic array through
mkResult; every exception inside the try is caught and turned into
the empty list. -/
def search_web (serper_api_key : Option String)
    (post : SerperRequest → HttpResult)
    (query : String) (num_results : Nat) : SearchOutput :=
  if serperKeyFalsy serper_api_key then
    ⟨[], ⟨0, [], [serperWarning]⟩⟩
  else
    let payload : SerperRequest := ⟨query, num_results⟩
    match post payload with
    | .transportError e =>
      ⟨[], ⟨1, [payload], ["Error in web search: " ++ e]⟩⟩
    | .response code body =>
      if 400 ≤ code && code < 600 then
        ⟨[], ⟨1, [payload], ["Error in web search: HTTPError"]⟩⟩
      else
        match body with
        | none => ⟨[], ⟨1, [payload], ["Error in web search: JSONDecodeError"]⟩⟩
        | some data =>
          ⟨(data.organic.getD []).map mkResult, ⟨1, [payload], []⟩⟩

/-- Text of the question_check_prompt template before the
\x7bmessage\x7d placeholder (verbatim from the source, including the
trailing space on the first line and the 16-space indentation). -/
def qcHead : String :=
  "Analyze if the following message is a question that would benefit from current, factual information from the web. \n                Respond with only \x27YES\x27 or \x27NO\x27.\n                \n                Examples that need web search:\n                - Questions about current events, news, or recent developments\n                - Questions about specific facts, statistics, or data\n                - Questions about technology, companies, or products\n                - Questions about recent research or studies\n                - Questions about current prices, availability, or status\n                \n                Examples that don\x27t need web search:\n                - General philosophical questions\n                - Personal advice or opinions\n                - Creative writing prompts\n                - Simple greetings or casual conversation\n                \n                Message: "

/-- Text of the question_check_prompt template after the
\x7bmessage\x7d placeholder. -/
def qcTail : String := "\n                \n                Response:"

/-- question_check_prompt applied to the message. -/
def question_check_template (message : String) : String :=
  qcHead ++ message ++ qcTail

/-- Text of the with-results response prompt before the
\x7bmessage\x7d placeholder. -/
def wrHead : String :=
  "You are a Megabrain AI assistant with access to current web information. \n                    Answer the user\x27s question comprehensively using the provided search results and your knowledge.\n                    \n                    Guidelines:\n                    - Provide a thorough, accurate, and helpful answer\n                    - Use the search results to support your response with current information\n                    - Cite specific sources when referencing search results\n                    - If search results don\x27t fully answer the question, use your knowledge to fill gaps\n                    - Be clear about what information comes from web search vs. your training data\n                    - Structure your response logically and clearly\n                    \n                    User\x27s Question: "

/-- Text of the with-results response prompt between the
\x7bmessage\x7d and \x7bsearch_results\x7d placeholders. -/
def wrMid : String :=
  "\n                    \n                    Web Search Results:\n                    "

/-- Text of the with-results response prompt after the
\x7bsearch_results\x7d placeholder. -/
def wrTail : String := "\n                    \n                    Comprehensive Answer:"

/-- The with-results response prompt applied to the message and the
formatted search context. -/
def with_results_template (message search_results : String) : String :=
  wrHead ++ message ++ wrMid ++ search_results ++ wrTail

/-- Text of the no-results response prompt before the
\x7bmessage\x7d placeholder. -/
def nrHead : String :=
  "You are a Megabrain AI assistant. Answer the user\x27s question or respond to their message \n                    in a helpful, intelligent, and comprehensive manner.\n                    \n                    Guidelines:\n                    - Provide thoughtful, accurate, and helpful responses\n                    - Be conversational but informative\n                    - If it\x27s a question, give a complete answer\n                    - If it\x27s a statement, respond appropriately\n                    - Use your knowledge to provide valuable insights\n                    \n                    User\x27s Message: "

/-- Text of the no-results response prompt after the
\x7bmessage\x7d placeholder. -/
def nrTail : String := "\n                    \n                    Response:"

/-- The no-results response prompt applied to the message. -/
def no_results_template (message : String) : String :=
  nrHead ++ message ++ nrTail

/-- The fallback text returned by the outer except handler. -/
def fallbackAnswer (message_text : String) : String :=
  "I apologize, but I encountered an error while processing your message: \x27"
    ++ message_text
    ++ "\x27. Please try rephrasing your question or let me know how I can help you in a different way."

/-- One item of the formatted search context, the f-string
Title: \x7b...\x7d\nSnippet: \x7b...\x7d\nLink: \x7b...\x7d; direct
indexing result[k] raises KeyError when k is missing, modelled as an
error value. Fields are read in source order: title, snippet, link. -/
def render_result (r : Dict) : Except String String :=
  match dictGet r "title" with
  | none => .error "KeyError: title"
  | some t =>
    match dictGet r "snippet" with
    | none => .error "KeyError: snippet"
    | some s =>
      match dictGet r "link" with
      | none => .error "KeyError: link"
      | some l => .ok ("Title: " ++ t ++ "\nSnippet: " ++ s ++ "\nLink: " ++ l)

/-- Python str.join over a separator: the pieces in order with the
separator between consecutive pieces. -/
def sepJoin (sep : String) : List String → String
  | [] => ""
  | [x] => x
  | x :: y :: xs => x ++ sep ++ sepJoin sep (y :: xs)

/-- The list comprehension over search_results: each result is
rendered in order and the first raised KeyError propagates. -/
def renderAll : List Dict → Except String (List String)
  | [] => .ok []
  | r :: rest =>
    match render_result r with
    | .error e => .error e
    | .ok s =>
      match renderAll rest with
      | .error e => .error e
      | .ok ss => .ok (s :: ss)

/-- search_context = "\n\n".join(rendered results): the list
comprehension is evaluated first (raising on the first missing key),
then joined with blank lines. -/
def search_context (results : List Dict) : Except String String :=
  match renderAll results with
  | .error e => .error e
  | .ok parts => .ok (sepJoin "\n\n" parts)

/-- The rendered text of one search result when all three keys are
present, reading each field with an empty-string default. -/
def renderStr (r : Dict) : String :=
  "Title: " ++ jsonGetD r "title" "" ++ "\nSnippet: " ++ jsonGetD r "snippet" ""
    ++ "\nLink: " ++ jsonGetD r "link" ""

/-- The LLM object shared by the classifier chain and both response
chains: prompt text in, generated text out, or a raised exception. -/
abbrev Oracle := String → Except String String

/-- The requests.post behaviour visible to search_web. -/
abbrev Post := SerperRequest → HttpResult

/-- Observable intermediate state of one megabrain_improvement call:
the classifier decision (none when the classifier call itself raised),
how many times search_web was invoked, the trace of that invocation,
the search_results list in scope at the template branch, and the
response prompt that was built (none when execution raised before
building it). -/
structure PipeTrace where
  needsSearch : Option Bool
  searchCalls : Nat
  searchTrace : Option SearchTrace
  resultsUsed : Option (List Dict)
  synthPrompt : Option String
deriving DecidableEq

/-- Answer text together with the call trace. -/
structure PipeOutput where
  answer : String
  trace : PipeTrace
deriving DecidableEq

/-- The trace recorded when the classifier LLM call raises. -/
def classifierErrTrace : PipeTrace := ⟨none, 0, none, none, none⟩

/-- response_chain.invoke followed by .strip(): one LLM call on the
given prompt; its raised exception propagates. -/
def finishLLM (llm : Oracle) (prompt : String) (tr : PipeTrace) :
    Except String String × PipeTrace :=
  match llm prompt with
  | .error e => (.error e, tr)
  | .ok result => (.ok (pyStrip result), tr)

/-- The template branch of megabrain_improvement: if search_results is
non-empty, format the search context (KeyError would propagate) and
run the with-results chain; otherwise run the no-results chain. -/
def continuePipe (llm : Oracle) (message_text : String)
    (search_results : List Dict) (needsSearch : Option Bool)
    (searchCalls : Nat) (st : Option SearchTrace) :
    Except String String × PipeTrace :=
  if search_results.isEmpty then
    finishLLM llm (no_results_template message_text)
      ⟨needsSearch, searchCalls, st, some search_results,
        some (no_results_template message_text)⟩
  else
    match search_context search_results with
    | .error e =>
      (.error e, ⟨needsSearch, searchCalls, st, some search_results, none⟩)
    | .ok ctx =>
      finishLLM llm (with_results_template message_text ctx)
        ⟨needsSearch, searchCalls, st, some search_results,
          some (with_results_template message_text ctx)⟩

/-- The pipeline after the classifier chain returned: strip and
uppercase the raw decision, compare against "YES", conditionally call
search_web(message_text, num_results=5), then branch on the results. -/
def afterClassifier (llm : Oracle) (serper_api_key : Option String)
    (post : Post) (message_text : String) :
    Except String String → Except String String × PipeTrace
  | .error e => (.error e, classifierErrTrace)
  | .ok raw =>
    let needs_search := pyUpper (pyStrip raw)
    if needs_search = "YES" then
      let sw := search_web serper_api_key post message_text 5
      continuePipe llm message_text sw.results (some true) 1 (some sw.trace)
    else
      continuePipe llm message_text [] (some false) 0 none

/-- The body of the try block of megabrain_improvement: the value is
ok (the stripped answer) or error (the first raised exception). -/
def runPipeline (llm : Oracle) (serper_api_key : Option String)
    (post : Post) (message_text : String) :
    Except String String × PipeTrace :=
  afterClassifier llm serper_api_key post message_text
    (llm (question_check_template message_text))

/-- megabrain_improvement(message_text): the whole try body, with the
outer except handler converting any raised exception into the
fallback answer. -/
def megabrain_improvement (llm : Oracle) (serper_api_key : Option String)
    (post : Post) (message_text : String) : PipeOutput :=
  let run := runPipeline llm serper_api_key post message_text
  match run.1 with
  | .ok answer => ⟨answer, run.2⟩
  | .error _ => ⟨fallbackAnswer message_text, run.2⟩

/-- Bool test that pat occurs at the start of l. -/
def listHasPre (pat l : List Char) : Bool :=
  match pat, l with
  | [], _ => true
  | _ :: _, [] => false
  | p :: ps, c :: cs => p == c && listHasPre ps cs

/-- Bool test that pat occurs contiguously somewhere in l. -/
def listHasSub (pat l : List Char) : Bool :=
  match l with
  | [] => pat.isEmpty
  | _ :: cs => listHasPre pat l || listHasSub pat cs

/-- Bool test that pat occurs as a contiguous substring of s. -/
def strHasSub (s pat : String) : Bool :=
  listHasSub pat.data s.data

/-! Concrete test doubles used by witnesses and counterexamples. -/

/-- A post oracle whose transport always raises. -/
def postErr : Post := fun _ => .transportError "timeout"

/-- A concrete organic item as parsed from a provider body. -/
def organicItem1 : Dict := [("title", "t1"), ("snippet", "s1"), ("link", "l1")]

/-- A second concrete organic item. -/
def organicItem2 : Dict := [("title", "t2"), ("snippet", "s2"), ("link", "l2")]

/-- A post oracle answering 200 with one organic item. -/
def postOk1 : Post := fun _ => .response 200 (some ⟨some [organicItem1]⟩)

/-- A post oracle answering 200 with two organic items. -/
def postOk2 : Post := fun _ => .response 200 (some ⟨some [organicItem1, organicItem2]⟩)

/-- A post oracle answering 301 (a non-2xx status that
raise_for_status does not raise on) with a parseable body holding one
organic item. -/
def post301 : Post := fun _ => .response 301 (some ⟨some [organicItem1]⟩)

/-- An LLM oracle that always answers YES. -/
def llmYes : Oracle := fun _ => .ok "YES"

/-- An LLM oracle that always answers a padded lowercase no. -/
def llmNo : Oracle := fun _ => .ok " no "

/-- An LLM oracle whose every call raises. -/
def llmFail : Oracle := fun _ => .error "LLM down"

/-- A concrete news question. -/
def newsMsg : String := "Tell me about today\x27s news"

/-- An LLM oracle that classifies newsMsg as YES and answers every
other prompt with padded text. -/
def llmNews : Oracle := fun p =>
  if p = question_check_template newsMsg then .ok "YES" else .ok " All quiet. "

/-! Helper lemmas about the embedding. -/

theorem megabrain_trace (llm : Oracle) (key : Option String) (post : Post) (m : String) :
    (megabrain_improvement llm key post m).trace = (runPipeline llm key post m).2 := by
  simp only [megabrain_improvement]
  cases (runPipeline llm key post m).1 <;> rfl

theorem megabrain_answer_ok (llm : Oracle) (key : Option String) (post : Post)
    (m a : String) (h : (runPipeline llm key post m).1 = .ok a) :
    (megabrain_improvement llm key post m).answer = a := by
  simp only [megabrain_improvement, h]

theorem megabrain_answer_err (llm : Oracle) (key : Option String) (post : Post)
    (m e : String) (h : (runPipeline llm key post m).1 = .error e) :
    (megabrain_improvement llm key post m).answer = fallbackAnswer m := by
  simp only [megabrain_improvement, h]

theorem finishLLM_snd (llm : Oracle) (p : String) (tr : PipeTrace) :
    (finishLLM llm p tr).2 = tr := by
  unfold finishLLM
  cases llm p <;> rfl

theorem finishLLM_fst_ok (llm : Oracle) (p : String) (tr : PipeTrace)
    (a : String) (h : llm p = .ok a) :
    (finishLLM llm p tr).1 = .ok (pyStrip a) := by
  simp [finishLLM, h]

theorem continuePipe_empty (llm : Oracle) (m : String) (ns : Option Bool)
    (sc : Nat) (st : Option SearchTrace) :
    continuePipe llm m [] ns sc st =
      finishLLM llm (no_results_template m)
        ⟨ns, sc, st, some [], some (no_results_template m)⟩ := rfl

theorem continuePipe_cons_ok (llm : Oracle) (m : String) (r : Dict) (rest : List Dict)
    (ns : Option Bool) (sc : Nat) (st : Option SearchTrace) (ctx : String)
    (hctx : search_context (r :: rest) = .ok ctx) :
    continuePipe llm m (r :: rest) ns sc st =
      finishLLM llm (with_results_template m ctx)
        ⟨ns, sc, st, some (r :: rest), some (with_results_template m ctx)⟩ := by
  simp [continuePipe, hctx]

theorem continuePipe_trace (llm : Oracle) (m : String) (rs : List Dict)
    (ns : Option Bool) (sc : Nat) (st : Option SearchTrace) :
    (continuePipe llm m rs ns sc st).2.needsSearch = ns ∧
    (continuePipe llm m rs ns sc st).2.searchCalls = sc := by
  unfold continuePipe
  split
  · simp [finishLLM_snd]
  · cases hctx : search_context rs with
    | error e => simp [hctx]
    | ok ctx => simp [hctx, finishLLM_snd]

theorem runPipeline_classified (llm : Oracle) (key : Option String) (post : Post)
    (m raw : String) (hc : llm (question_check_template m) = .ok raw) :
    runPipeline llm key post m = afterClassifier llm key post m (.ok raw) := by
  unfold runPipeline
  rw [hc]

theorem afterClassifier_yes (llm : Oracle) (key : Option String) (post : Post)
    (m raw : String) (hyes : pyUpper (pyStrip raw) = "YES") :
    afterClassifier llm key post m (.ok raw) =
      continuePipe llm m (search_web key post m 5).results (some true) 1
        (some (search_web key post m 5).trace) := by
  simp [afterClassifier, hyes]

theorem afterClassifier_no (llm : Oracle) (key : Option String) (post : Post)
    (m raw : String) (hno : pyUpper (pyStrip raw) ≠ "YES") :
    afterClassifier llm key post m (.ok raw) =
      continuePipe llm m [] (some false) 0 none := by
  simp [afterClassifier, hno]

theorem search_web_results_shape (key : Option String) (post : Post)
    (q : String) (n : Nat) :
    ∀ r ∈ (search_web key post q n).results, ∃ item, r = mkResult item := by
  intro r hr
  cases hkey : serperKeyFalsy key with
  | true => simp [search_web, hkey] at hr
  | false =>
    cases hp : post ⟨q, n⟩ with
    | transportError e => simp [search_web, hkey, hp] at hr
    | response code body =>
      simp only [search_web, hkey, Bool.false_eq_true, if_false, hp] at hr
      split at hr
      · simp at hr
      · cases body with
        | none => simp at hr
        | some data =>
          simp only [List.mem_map] at hr
          obtain ⟨item, _, hi⟩ := hr
          exact ⟨item, hi.symm⟩

theorem render_result_mkResult (item : Dict) :
    render_result (mkResult item) = .ok (renderStr (mkResult item)) := rfl

theorem renderAll_of_shape (l : List Dict)
    (h : ∀ r ∈ l, ∃ item, r = mkResult item) :
    renderAll l = .ok (l.map renderStr) := by
  induction l with
  | nil => rfl
  | cons r rest ih =>
    obtain ⟨item, hitem⟩ := h r (List.mem_cons_self r rest)
    have hrest := ih (fun x hx => h x (List.mem_cons_of_mem r hx))
    subst hitem
    simp [renderAll, render_result_mkResult, hrest]

theorem search_context_search_web (key : Option String) (post : Post)
    (q : String) (n : Nat) :
    search_context (search_web key post q n).results =
      .ok (sepJoin "\n\n" ((search_web key post q n).results.map renderStr)) := by
  unfold search_context
  rw [renderAll_of_shape _ (search_web_results_shape key post q n)]

theorem sepJoin_mem (sep x : String) :
    ∀ l : List String, x ∈ l → ∃ u v, sepJoin sep l = u ++ x ++ v := by
  intro l
  induction l with
  | nil => intro hx; cases hx
  | cons a rest ih =>
    intro hx
    cases rest with
    | nil =>
      have hxa : x = a := by simpa using hx
      subst hxa
      exact ⟨"", "", by simp [sepJoin]⟩
    | cons b rest2 =>
      rcases List.mem_cons.mp hx with h1 | h2
      · subst h1
        refine ⟨"", sep ++ sepJoin sep (b :: rest2), ?_⟩
        simp [sepJoin, String.append_assoc]
      · obtain ⟨u, v, huv⟩ := ih h2
        refine ⟨a ++ sep ++ u, v, ?_⟩
        simp [sepJoin, huv, String.append_assoc]

/-! Claim theorems. -/

/-- Claim C1: for every message and every behaviour of the classifier
LLM call, the search call and the synthesizer LLM call,
megabrain_improvement returns a string (total function, nothing
propagates to the caller), and that string is either exactly the ok
value of the try body or, whenever the body raised anywhere, the
deterministic fallback answer produced once at the outer boundary. -/
theorem answer_total_and_fallback (llm : Oracle) (key : Option String)
    (post : Post) (m : String) :
    ((megabrain_improvement llm key post m).answer = fallbackAnswer m ∨
      (runPipeline llm key post m).1 =
        .ok ((megabrain_improvement llm key post m).answer)) ∧
    (∀ e, (runPipeline llm key post m).1 = .error e →
      (megabrain_improvement llm key post m).answer = fallbackAnswer m) := by
  constructor
  · cases h : (runPipeline llm key post m).1 with
    | error e => exact Or.inl (megabrain_answer_err llm key post m e h)
    | ok a =>
      refine Or.inr ?_
      rw [megabrain_answer_ok llm key post m a h]
  · intro e he
    exact megabrain_answer_err llm key post m e he

/-- Witness for C1: with every dependency failing (LLM raises, search
transport raises), the pipeline body errors and the answer is the
fallback. -/
theorem answer_total_and_fallback_witness :
    (runPipeline llmFail none postErr "hello").1 = .error "LLM down" ∧
    (megabrain_improvement llmFail none postErr "hello").answer =
      fallbackAnswer "hello" :=
  ⟨rfl, (answer_total_and_fallback llmFail none postErr "hello").2 "LLM down" rfl⟩

/-- Claim C2: the raw classifier output is stripped and uppercased and
compared with the literal YES: equality yields the SEARCH decision and
exactly one search_web call, every other value yields NO_SEARCH and
zero search_web calls. -/
theorem classifier_exact_yes_gate (llm : Oracle) (key : Option String)
    (post : Post) (m raw : String)
    (hc : llm (question_check_template m) = .ok raw) :
    (pyUpper (pyStrip raw) = "YES" →
      (megabrain_improvement llm key post m).trace.needsSearch = some true ∧
      (megabrain_improvement llm key post m).trace.searchCalls = 1) ∧
    (pyUpper (pyStrip raw) ≠ "YES" →
      (megabrain_improvement llm key post m).trace.needsSearch = some false ∧
      (megabrain_improvement llm key post m).trace.searchCalls = 0) := by
  constructor
  · intro hyes
    rw [megabrain_trace, runPipeline_classified llm key post m raw hc,
      afterClassifier_yes llm key post m raw hyes]
    exact continuePipe_trace llm m _ (some true) 1 _
  · intro hno
    rw [megabrain_trace, runPipeline_classified llm key post m raw hc,
      afterClassifier_no llm key post m raw hno]
    exact continuePipe_trace llm m [] (some false) 0 none

/-- Witness for C2: the classifier output " no " is not YES after
strip and uppercase, and the run performs zero search calls. -/
theorem classifier_exact_yes_gate_witness :
    llmNo (question_check_template "hi") = .ok " no " ∧
    pyUpper (pyStrip " no ") ≠ "YES" ∧
    (megabrain_improvement llmNo (some "k") postOk1 "hi").trace.searchCalls = 0 :=
  ⟨rfl, by decide,
    ((classifier_exact_yes_gate llmNo (some "k") postOk1 "hi" " no " rfl).2
      (by decide)).2⟩

/-- Counterexample for C3 as stated: a non-2xx status is not always a
caught failure with an empty result set. raise_for_status raises only
for 4xx/5xx, so a 301 response whose body parses with one organic item
makes search_web return a non-empty result list. -/
theorem search_web_non2xx_counterexample :
    post301 ⟨"q", 5⟩ = HttpResult.response 301 (some ⟨some [organicItem1]⟩) ∧
    (301 < 200 ∨ 299 < 301) ∧
    (search_web (some "k") post301 "q" 5).results = [mkResult organicItem1] ∧
    (search_web (some "k") post301 "q" 5).results ≠ [] := by
  refine ⟨rfl, Or.inr (by decide), rfl, by decide⟩

/-- Claim C3 (amended): if the HTTP call fails in a way the try block
observes as an exception (transport error, 4xx or 5xx status, or an
unparseable body), search_web catches the failure locally, logs an
error line, and returns the empty result set; by its type it never
propagates an exception for any input or provider behaviour. -/
theorem search_web_failure_to_empty (key : String) (post : Post)
    (q : String) (n : Nat) (h : isHttpFailure (post ⟨q, n⟩) = true) :
    (search_web (some key) post q n).results = [] ∧
    (search_web (some key) post q n).trace.logs ≠ [] := by
  cases hkey : serperKeyFalsy (some key) with
  | true => simp [search_web, hkey, serperWarning]
  | false =>
    cases hp : post ⟨q, n⟩ with
    | transportError e => simp [search_web, hkey, hp]
    | response code body =>
      rw [hp] at h
      simp only [search_web, hkey, Bool.false_eq_true, if_false, hp]
      cases hcond : (400 ≤ code && code < 600) with
      | true => simp
      | false =>
        have hbody : body.isNone := by simpa [isHttpFailure, hcond] using h
        cases body with
        | none => simp
        | some data => simp at hbody

/-- Witness for C3 (amended): a transport error yields the empty
result set with an error log line. -/
theorem search_web_failure_to_empty_witness :
    isHttpFailure (postErr ⟨"q", 5⟩) = true ∧
    (search_web (some "k") postErr "q" 5).results = [] :=
  ⟨rfl, (search_web_failure_to_empty "k" postErr "q" 5 rfl).1⟩

/-- Claim C4: when the classifier decision is SEARCH and search_web
returns at least one result, the synthesizer prompt is the
with-results template whose search-results block is exactly the
results rendered in provider order as Title/Snippet/Link blocks joined
by blank lines; in particular each rendered result occurs contiguously
inside the prompt. -/
theorem synth_prompt_formats_all_results (llm : Oracle) (key : Option String)
    (post : Post) (m raw : String)
    (hc : llm (question_check_template m) = .ok raw)
    (hyes : pyUpper (pyStrip raw) = "YES")
    (hne : (search_web key post m 5).results ≠ []) :
    (megabrain_improvement llm key post m).trace.synthPrompt =
      some (wrHead ++ m ++ wrMid ++
        sepJoin "\n\n" ((search_web key post m 5).results.map renderStr) ++ wrTail) ∧
    ∀ r ∈ (search_web key post m 5).results,
      ∃ u v,
        with_results_template m
            (sepJoin "\n\n" ((search_web key post m 5).results.map renderStr)) =
          u ++ renderStr r ++ v := by
  have hctx := search_context_search_web key post m 5
  have hrun : runPipeline llm key post m =
      continuePipe llm m (search_web key post m 5).results (some true) 1
        (some (search_web key post m 5).trace) := by
    rw [runPipeline_classified llm key post m raw hc,
      afterClassifier_yes llm key post m raw hyes]
  constructor
  · cases hres : (search_web key post m 5).results with
    | nil => exact absurd hres hne
    | cons r rest =>
      rw [hres] at hctx hrun
      rw [megabrain_trace, hrun,
        continuePipe_cons_ok llm m r rest (some true) 1 _ _ hctx,
        finishLLM_snd]
      rfl
  · intro r hr
    obtain ⟨u, v, huv⟩ :=
      sepJoin_mem "\n\n" (renderStr r) ((search_web key post m 5).results.map renderStr)
        (List.mem_map_of_mem renderStr hr)
    refine ⟨wrHead ++ m ++ wrMid ++ u, v ++ wrTail, ?_⟩
    rw [with_results_template, huv]
    simp [String.append_assoc]

/-- Witness for C4: a run with two provider results builds the
with-results prompt containing both rendered blocks in order. -/
theorem synth_prompt_formats_all_results_witness :
    llmYes (question_check_template "gold") = .ok "YES" ∧
    pyUpper (pyStrip "YES") = "YES" ∧
    (search_web (some "k") postOk2 "gold" 5).results ≠ [] ∧
    (megabrain_improvement llmYes (some "k") postOk2 "gold").trace.synthPrompt =
      some (wrHead ++ "gold" ++ wrMid ++
        sepJoin "\n\n" ((search_web (some "k") postOk2 "gold" 5).results.map renderStr)
        ++ wrTail) :=
  ⟨rfl, by decide, by decide,
    (synth_prompt_formats_all_results llmYes (some "k") postOk2 "gold" "YES"
      rfl (by decide) (by decide)).1⟩

/-- Claim C5: with SERPER_API_KEY absent, search_web returns the empty
result set, performs zero network calls (no request is posted), and
emits exactly the non-fatal warning line, for every query and
num_results. -/
theorem search_disabled_without_key (post : Post) (q : String) (n : Nat) :
    search_web none post q n = ⟨[], ⟨0, [], [serperWarning]⟩⟩ := rfl

/-- Claim C6: whenever the result set in scope at the template branch
is empty (NO_SEARCH decision, disabled search, failed search, or a
genuinely empty provider answer), the synthesizer prompt is the
no-results template, whose fixed parts contain no Title/Snippet/Link
block; and the run still completes normally, returning the stripped
synthesizer output rather than a pipeline-level failure. -/
theorem empty_results_use_no_results_template (llm : Oracle)
    (key : Option String) (post : Post) (m raw : String)
    (hc : llm (question_check_template m) = .ok raw)
    (hrs : (if pyUpper (pyStrip raw) = "YES"
        then (search_web key post m 5).results else []) = []) :
    (megabrain_improvement llm key post m).trace.synthPrompt =
      some (no_results_template m) ∧
    (no_results_template m = nrHead ++ m ++ nrTail ∧
      strHasSub nrHead "Title: " = false ∧ strHasSub nrTail "Title: " = false ∧
      strHasSub nrHead "Snippet: " = false ∧ strHasSub nrTail "Snippet: " = false ∧
      strHasSub nrHead "Link: " = false ∧ strHasSub nrTail "Link: " = false) ∧
    (∀ a, llm (no_results_template m) = .ok a →
      (megabrain_improvement llm key post m).answer = pyStrip a) := by
  have hrun : runPipeline llm key post m =
      finishLLM llm (no_results_template m)
        ⟨(if pyUpper (pyStrip raw) = "YES" then some true else some false),
          (if pyUpper (pyStrip raw) = "YES" then 1 else 0),
          (if pyUpper (pyStrip raw) = "YES"
            then some (search_web key post m 5).trace else none),
          some [], some (no_results_template m)⟩ := by
    by_cases hyes : pyUpper (pyStrip raw) = "YES"
    · rw [if_pos hyes] at hrs
      rw [runPipeline_classified llm key post m raw hc,
        afterClassifier_yes llm key post m raw hyes, hrs,
        continuePipe_empty, if_pos hyes, if_pos hyes, if_pos hyes]
    · rw [runPipeline_classified llm key post m raw hc,
        afterClassifier_no llm key post m raw hyes,
        continuePipe_empty, if_neg hyes, if_neg hyes, if_neg hyes]
  refine ⟨?_, ⟨rfl, rfl, rfl, rfl, rfl, rfl, rfl⟩, ?_⟩
  · rw [megabrain_trace, hrun, finishLLM_snd]
  · intro a ha
    refine megabrain_answer_ok llm key post m (pyStrip a) ?_
    rw [hrun]
    exact finishLLM_fst_ok llm (no_results_template m) _ a ha

/-- Witness for C6: decision SEARCH but the transport raises, so the
result set is empty; the run uses the no-results template and returns
the stripped synthesizer output, not the fallback. -/
theorem empty_results_use_no_results_template_witness :
    llmNews (question_check_template newsMsg) = .ok "YES" ∧
    (if pyUpper (pyStrip "YES") = "YES"
      then (search_web (some "k") postErr newsMsg 5).results else []) = [] ∧
    (megabrain_improvement llmNews (some "k") postErr newsMsg).trace.synthPrompt =
      some (no_results_template newsMsg) ∧
    (megabrain_improvement llmNews (some "k") postErr newsMsg).answer =
      pyStrip " All quiet. " :=
  ⟨rfl, by decide,
    (empty_results_use_no_results_template llmNews (some "k") postErr newsMsg
      "YES" rfl (by decide)).1,
    (empty_results_use_no_results_template llmNews (some "k") postErr newsMsg
      "YES" rfl (by decide)).2.2 " All quiet. " rfl⟩

/-- Claim C7: whenever the try body raises, however caused, the
returned text is exactly the fixed canned apology, which is the
concatenation of a fixed head, the literal original message, and a
fixed tail, hence contains the original message text. -/
theorem fallback_is_canned_apology (llm : Oracle) (key : Option String)
    (post : Post) (m e : String)
    (h : (runPipeline llm key post m).1 = .error e) :
    (megabrain_improvement llm key post m).answer = fallbackAnswer m ∧
    fallbackAnswer m =
      "I apologize, but I encountered an error while processing your message: \x27"
        ++ m
        ++ "\x27. Please try rephrasing your question or let me know how I can help you in a different way." :=
  ⟨megabrain_answer_err llm key post m e h, rfl⟩

/-- Witness for C7: a failing LLM call on a concrete message returns
the canned apology embedding that message. -/
theorem fallback_is_canned_apology_witness :
    (runPipeline llmFail (some "k") postOk1 "help me").1 = .error "LLM down" ∧
    (megabrain_improvement llmFail (some "k") postOk1 "help me").answer =
      fallbackAnswer "help me" :=
  ⟨rfl,
    (fallback_is_canned_apology llmFail (some "k") postOk1 "help me" "LLM down"
      rfl).1⟩

/-- Counterexample for C8 as stated: search_web does not truncate the
organic array, so a provider answering two organic items to a request
with num_results = 1 makes the result set longer than num_results. -/
theorem search_web_exceeds_cap_counterexample :
    (search_web (some "k") postOk2 "q" 1).results.length = 2 ∧
    ¬((search_web (some "k") postOk2 "q" 1).results.length ≤ 1) := by
  refine ⟨rfl, by decide⟩

/-- Claim C8 (amended): on a successful call with a non-empty
credential present, the result set length equals the length of the
organic array the provider returned, with no local cap; num_results
only bounds what is requested, appearing as the num field of the
single posted payload. (A falsy credential disables search instead.) -/
theorem search_web_no_local_cap (key : String) (post : Post) (q : String)
    (n : Nat) (code : Nat) (organicL : List Dict)
    (hkey : key.isEmpty = false)
    (hp : post ⟨q, n⟩ = .response code (some ⟨some organicL⟩))
    (hcode : (400 ≤ code && code < 600) = false) :
    (search_web (some key) post q n).results.length = organicL.length ∧
    (search_web (some key) post q n).trace.requests = [⟨q, n⟩] := by
  have hk : serperKeyFalsy (some key) = false := hkey
  simp [search_web, hk, hp, hcode]

/-- Witness for C8 (amended): with a non-empty credential, a 200
response with two organic items to a num_results = 1 request yields
exactly two results and one posted payload with num = 1. -/
theorem search_web_no_local_cap_witness :
    "k".isEmpty = false ∧
    postOk2 ⟨"q", 1⟩ = .response 200 (some ⟨some [organicItem1, organicItem2]⟩) ∧
    (search_web (some "k") postOk2 "q" 1).results.length =
      [organicItem1, organicItem2].length :=
  ⟨rfl, rfl,
    (search_web_no_local_cap "k" postOk2 "q" 1 200 [organicItem1, organicItem2]
      rfl rfl (by decide)).1⟩

/-- Counterexample for C9 as stated: the search credential is read by
os.getenv inside search_web on every call, so two calls in the same
process with different SERPER_API_KEY values do not behave
identically: with the key present one network call is made, with it
absent none is. -/
theorem serper_key_change_counterexample :
    (search_web (some "k") postOk1 "q" 5).trace.networkCalls = 1 ∧
    (search_web none postOk1 "q" 5).trace.networkCalls = 0 ∧
    search_web (some "k") postOk1 "q" 5 ≠ search_web none postOk1 "q" 5 := by
  refine ⟨rfl, rfl, by decide⟩

/-- Claim C9 (amended): search_web consults the credential value at
each call: a call seeing a falsy value (unset, or set to the empty
string) performs zero network calls and returns empty, and a call
seeing a non-empty value posts exactly once, so behaviour follows the
per-call environment value rather than a process-wide snapshot. -/
theorem serper_key_read_per_call (post : Post) (q : String) (n : Nat) :
    ((search_web none post q n).trace.networkCalls = 0 ∧
      (search_web none post q n).results = []) ∧
    ((search_web (some "") post q n).trace.networkCalls = 0 ∧
      (search_web (some "") post q n).results = []) ∧
    ∀ k : String, k.isEmpty = false →
      (search_web (some k) post q n).trace.networkCalls = 1 := by
  refine ⟨⟨rfl, rfl⟩, ⟨rfl, rfl⟩, ?_⟩
  intro k hk
  have hkey : serperKeyFalsy (some k) = false := hk
  cases hp : post ⟨q, n⟩ with
  | transportError e => simp [search_web, hkey, hp]
  | response code body =>
    simp only [search_web, hkey, Bool.false_eq_true, if_false, hp]
    cases hcond : (400 ≤ code && code < 600) with
    | true => simp
    | false =>
      cases body with
      | none => simp
      | some data => simp

/-- Witness for C9 (amended): a concrete non-empty credential makes
exactly one network call. -/
theorem serper_key_read_per_call_witness :
    "k".isEmpty = false ∧
    (search_web (some "k") postOk1 "q" 5).trace.networkCalls = 1 :=
  ⟨rfl, (serper_key_read_per_call postOk1 "q" 5).2.2 "k" rfl⟩

/-- Claim C10: every result search_web returns carries all three keys
title, snippet and link, so the formatting step that indexes them
directly never raises KeyError on a result set search_web produced:
search_context evaluates to an ok value on it. -/
theorem search_results_have_all_keys (key : Option String) (post : Post)
    (q : String) (n : Nat) :
    (∀ r ∈ (search_web key post q n).results,
      (dictGet r "title").isSome ∧ (dictGet r "snippet").isSome ∧
        (dictGet r "link").isSome) ∧
    search_context (search_web key post q n).results =
      .ok (sepJoin "\n\n" ((search_web key post q n).results.map renderStr)) := by
  refine ⟨?_, search_context_search_web key post q n⟩
  intro r hr
  obtain ⟨item, hitem⟩ := search_web_results_shape key post q n r hr
  subst hitem
  exact ⟨rfl, rfl, rfl⟩

/-- Witness for C10: the result parsed from a concrete provider answer
is in the result set and its title key is present. -/
theorem search_results_have_all_keys_witness :
    mkResult organicItem1 ∈ (search_web (some "k") postOk1 "q" 5).results ∧
    (dictGet (mkResult organicItem1) "title").isSome :=
  ⟨by decide,
    ((search_results_have_all_keys (some "k") postOk1 "q" 5).1
      (mkResult organicItem1) (by decide)).1⟩

end Megabrain
